import Mathlib

/-!
Verification of the pricing/checkout state machine
(`src/machines/commerce-machine.ts`, built on xstate v4).

The data model and every operation below are shallow embeddings of the
TypeScript source.  JavaScript `undefined` / optional fields become `Option`,
the `{}` initial pricing data becomes the record with every field `none`
(zod's `safeParse` fails on it exactly as it fails on `{}`), and the lodash
`isEmpty` calls are modelled at the types at which the source applies them.
The xstate runtime semantics that matter here: reaching a top-level `final`
state stops the interpreted service, so a stopped machine drops every
subsequent event; an `after: 500` timer restarts whenever its state is
re-entered; an invoked fetch is issued each time `loadingPrices` is entered.
-/

/-- Coupon type tag, from the TS union `'ppp' | 'default'`. -/
inductive CouponType
  | ppp
  | default
deriving DecidableEq

/-- The TS `CouponToApply` record. -/
structure CouponToApply where
  couponCode : String
  couponType : CouponType
deriving DecidableEq

/-- A `{coupon_code}` record, as in `available_coupons.ppp`,
`available_coupons.default` and `applied_coupon`. -/
structure Coupon where
  coupon_code : String
deriving DecidableEq

/-- The `available_coupons` map with its two optional keys. -/
structure AvailableCoupons where
  ppp : Option Coupon
  default : Option Coupon
deriving DecidableEq

/-- Modelled from the spec: one entry of the `plans` list of a pricing
payload (`pricingPlanSchema` lives in `types`, outside `src/`):
`{planId: string, priceDiscounted?: number, ...}`, named as in the machine's
accesses `plan.stripe_price_id` and `plan.price_discounted`.  The discounted
price is a JS number, which is what makes the lodash `isEmpty` call on it
degenerate (see `isEmptyOptNumber`). -/
structure Plan where
  stripe_price_id : String
  price_discounted : Option Int
deriving DecidableEq

/-- A pricing payload.  `plans = none` stands for a payload whose `plans`
entry is missing or malformed, i.e. exactly the payloads rejected by
`z.object({plans: z.array(pricingPlanSchema)})`.  The empty object `{}` is
the record with every field `none`. -/
structure PricingData where
  plans : Option (List Plan)
  available_coupons : Option AvailableCoupons
  applied_coupon : Option Coupon
deriving DecidableEq

/-- The `{}` that `CommerceMachineContext.pricingData` starts as. -/
def emptyPricingData : PricingData := ⟨none, none, none⟩

/-- The machine context (TS `CommerceMachineContext`). -/
structure CommerceMachineContext where
  pricingData : PricingData
  priceId : Option String
  quantity : Nat
  couponToApply : Option CouponToApply
deriving DecidableEq

/-- The initial context from the machine config:
`{pricingData: {}, priceId: undefined, quantity: 1, couponToApply: undefined}`. -/
def initialContext : CommerceMachineContext := ⟨emptyPricingData, none, 1, none⟩

/-- lodash `isEmpty` applied to an optional `{coupon_code}` record:
`isEmpty(undefined)` is `true`, and a record with an own enumerable key is
not empty. -/
def isEmptyOptCoupon : Option Coupon → Bool
  | none => true
  | some _ => false

/-- lodash `isEmpty` applied to `currentPlan?.price_discounted`, an optional
JS number: `isEmpty(undefined) = true`, and `isEmpty(n) = true` for every
number `n` as well, because lodash treats primitives without enumerable
properties as empty.  This is faithful to lodash, not a simplification. -/
def isEmptyOptNumber : Option Int → Bool
  | none => true
  | some _ => true

/-- The helper `extractAppliedDefaultCoupon` defined inside
`assignPricingData`: returns `none` for the TS `{}` result (merge nothing,
leave `couponToApply` unchanged) and `some c` for `{couponToApply: c}`. -/
def extractAppliedDefaultCoupon (pricingData : PricingData) : Option CouponToApply :=
  let availableDefaultCoupon := pricingData.available_coupons.bind AvailableCoupons.default
  let appliedCoupon := pricingData.applied_coupon
  if isEmptyOptCoupon availableDefaultCoupon || isEmptyOptCoupon appliedCoupon then
    none
  else
    match availableDefaultCoupon, appliedCoupon with
    | some availableDefault, some applied =>
      if availableDefault.coupon_code = applied.coupon_code then
        some ⟨applied.coupon_code, CouponType.default⟩
      else
        none
    | _, _ => none

/-- The zod check `z.object({plans: z.array(pricingPlanSchema)}).safeParse`,
as a predicate on an arbitrary pricing value: it succeeds exactly when the
`plans` list is present and well-formed.  The source applies it to
`context.pricingData` (the previously stored value). -/
def plansValidation (pd : PricingData) : Bool :=
  pd.plans.isSome

/-- The `plans.find((plan) => plan.stripe_price_id === context.priceId)`
lookup, on the plans list of a given payload. -/
def matchingPlan (pd : PricingData) (priceId : Option String) : Option Plan :=
  (pd.plans.getD []).find? (fun plan => some plan.stripe_price_id == priceId)

/-- The `assignPricingData` action, run on
`done.invoke.fetchPricingDataService` with the fetched payload `eventData`.
Mirrors the source: parse `context.pricingData` (not the fresh payload);
on failure store the raw payload only; on success look up the current plan
in the *stored* plans, compute `noCouponToApply` via lodash `isEmpty`, and
either clear `couponToApply` or merge `extractAppliedDefaultCoupon` of the
fresh payload. -/
def assignPricingData (context : CommerceMachineContext) (eventData : PricingData) :
    CommerceMachineContext :=
  match context.pricingData.plans with
  | none => {context with pricingData := eventData}
  | some plans =>
    let currentPlan := plans.find? (fun plan => some plan.stripe_price_id == context.priceId)
    let noCouponToApply := isEmptyOptNumber (currentPlan.bind Plan.price_discounted)
    if noCouponToApply then
      {context with pricingData := eventData, couponToApply := none}
    else
      match extractAppliedDefaultCoupon eventData with
      | some c => {context with pricingData := eventData, couponToApply := some c}
      | none => {context with pricingData := eventData}

/-- The `applyPPPCoupon` action: `pppCouponSchema.safeParse(context.pricingData)`
succeeds exactly when `available_coupons.ppp.coupon_code` is structurally
present; on success the transform yields the ppp `CouponToApply`, on failure
`undefined` is assigned. -/
def applyPPPCoupon (context : CommerceMachineContext) : CommerceMachineContext :=
  let result : Option CouponToApply :=
    (context.pricingData.available_coupons.bind AvailableCoupons.ppp).map
      (fun c => ⟨c.coupon_code, CouponType.ppp⟩)
  {context with couponToApply := result}

/-- The `removePPPCoupon` action: unconditionally assigns `undefined`. -/
def removePPPCoupon (context : CommerceMachineContext) : CommerceMachineContext :=
  {context with couponToApply := none}

/-- The `updateQuantity` action for `CHANGE_QUANTITY`. -/
def updateQuantity (context : CommerceMachineContext) (quantity : Nat) :
    CommerceMachineContext :=
  {context with quantity := quantity}

/-- Guard `pricingIncludesPPPCoupon`:
`context?.couponToApply?.couponType === 'ppp'`. -/
def pricingIncludesPPPCoupon (context : CommerceMachineContext) : Bool :=
  match context.couponToApply with
  | some coupon =>
    match coupon.couponType with
    | CouponType.ppp => true
    | _ => false
  | none => false

/-- Guard `pricingIncludesDefaultCoupon`:
`context?.couponToApply?.couponType === 'default'`. -/
def pricingIncludesDefaultCoupon (context : CommerceMachineContext) : Bool :=
  match context.couponToApply with
  | some coupon =>
    match coupon.couponType with
    | CouponType.default => true
    | _ => false
  | none => false

/-- Resting sub-states of the compound `pricesLoaded` state.  The
`checkingCouponStatus` pseudo-state resolves immediately through its
`always` transitions and is modelled by the function of the same name. -/
inductive CouponState
  | withPPPCoupon
  | withDefaultCoupon
  | withoutCoupon
deriving DecidableEq

/-- The `always` fan-out of the `checkingCouponStatus` sub-state, with the
guards evaluated in source order. -/
def checkingCouponStatus (context : CommerceMachineContext) : CouponState :=
  if pricingIncludesPPPCoupon context then CouponState.withPPPCoupon
  else if pricingIncludesDefaultCoupon context then CouponState.withDefaultCoupon
  else CouponState.withoutCoupon

/-- The machine's state nodes.  `debouncingQuantityChange` carries the
absolute time at which its `after: 500` timer fires (entry time + 500);
re-entering the state replaces the deadline, which is xstate's
restart-on-re-entry timer semantics. -/
inductive Node
  | loadingPrices
  | debouncingQuantityChange (deadline : Nat)
  | pricesLoaded (sub : CouponState)
  | pricingFetchFailed
deriving DecidableEq

/-- A machine configuration: current state node plus context. -/
structure MachineState where
  node : Node
  context : CommerceMachineContext
deriving DecidableEq

/-- The external events of the machine.  `fetchDone` / `fetchError` are the
`done.invoke` / `error.platform` completions of the invoked
`fetchPricingDataService`; `confirmPrice` stands for `CONFIRM_PRICE` (its
callback runs outside the machine and changes nothing in it). -/
inductive Event
  | changeQuantity (quantity : Nat)
  | removePPPCoupon
  | applyPPPCoupon
  | confirmPrice
  | switchPrice (priceId : String)
  | fetchDone (data : PricingData)
  | fetchError
deriving DecidableEq

/-- One request issued by the invoked `fetchPricingData` service:
`loadPricingData({quantity, coupon: couponToApply?.couponCode})`. -/
structure FetchRequest where
  quantity : Nat
  coupon : Option String
deriving DecidableEq

/-- The fetch issued on entry to `loadingPrices`, reading the context after
the transition's actions ran. -/
def invokeFetch (context : CommerceMachineContext) : FetchRequest :=
  ⟨context.quantity, context.couponToApply.map CouponToApply.couponCode⟩

/-- The `after: 500` transition of `debouncingQuantityChange`: go to
`#loadingPrices`, whose entry issues a fetch. -/
def fireDebounce (s : MachineState) : MachineState × List FetchRequest :=
  (⟨Node.loadingPrices, s.context⟩, [invokeFetch s.context])

/-- Let time advance to instant `t`: the only time-based behaviour is the
debounce timer, which fires once its deadline has been reached. -/
def elapse (s : MachineState) (t : Nat) : MachineState × List FetchRequest :=
  match s.node with
  | Node.debouncingQuantityChange d => if d ≤ t then fireDebounce s else (s, [])
  | _ => (s, [])

/-- Dispatch one event at time `t`.  The first arm is the xstate runtime
rule for a machine that reached its top-level `final` state
(`pricingFetchFailed` with `type: 'final'`): the interpreted service has
stopped, so every event — including the root-level `CHANGE_QUANTITY` — is
dropped.  The `changeQuantity` arm is the root `on: CHANGE_QUANTITY` handler
(and coincides with the self-transition inside `debouncingQuantityChange`),
which re-targets `debouncingQuantityChange`, restarting its timer.
`confirmPrice`, and any event a state has no handler for, falls through to
the final arm and is ignored. -/
def handle (s : MachineState) (t : Nat) (e : Event) : MachineState × List FetchRequest :=
  match s.node, e with
  | Node.pricingFetchFailed, _ => (s, [])
  | _, Event.changeQuantity q =>
    (⟨Node.debouncingQuantityChange (t + 500), updateQuantity s.context q⟩, [])
  | Node.loadingPrices, Event.fetchDone data =>
    let ctx := assignPricingData s.context data
    (⟨Node.pricesLoaded (checkingCouponStatus ctx), ctx⟩, [])
  | Node.loadingPrices, Event.fetchError =>
    (⟨Node.pricingFetchFailed, s.context⟩, [])
  | Node.pricesLoaded sub, Event.switchPrice priceId =>
    (⟨Node.pricesLoaded sub, {s.context with priceId := some priceId}⟩, [])
  | Node.pricesLoaded CouponState.withPPPCoupon, Event.removePPPCoupon =>
    let ctx := removePPPCoupon s.context
    (⟨Node.loadingPrices, ctx⟩, [invokeFetch ctx])
  | Node.pricesLoaded CouponState.withDefaultCoupon, Event.applyPPPCoupon =>
    let ctx := applyPPPCoupon s.context
    (⟨Node.loadingPrices, ctx⟩, [invokeFetch ctx])
  | Node.pricesLoaded CouponState.withoutCoupon, Event.applyPPPCoupon =>
    let ctx := applyPPPCoupon s.context
    (⟨Node.loadingPrices, ctx⟩, [invokeFetch ctx])
  | _, _ => (s, [])

/-- Deliver an event at time `t`: any due debounce timer fires first, then
the event itself is dispatched.  The second component collects the fetches
issued during the step. -/
def deliver (s : MachineState) (t : Nat) (e : Event) : MachineState × List FetchRequest :=
  ((handle (elapse s t).1 t e).1, (elapse s t).2 ++ (handle (elapse s t).1 t e).2)

/-- Run a list of time-stamped events, collecting every fetch issued. -/
def runTimed : MachineState → List (Nat × Event) → MachineState × List FetchRequest
  | s, [] => (s, [])
  | s, e :: rest =>
    ((runTimed (deliver s e.1 e.2).1 rest).1,
     (deliver s e.1 e.2).2 ++ (runTimed (deliver s e.1 e.2).1 rest).2)

/-- Last element of a nonempty burst, carried as head plus tail. -/
def lastPair : Nat × Nat → List (Nat × Nat) → Nat × Nat
  | p, [] => p
  | _, q :: rest => lastPair q rest

/-- The tail of a quantity burst is well-timed relative to the previous
event's time `tp`: times do not decrease and each event arrives strictly
less than 500ms after the previous one. -/
def burstTail : Nat → List (Nat × Nat) → Bool
  | _, [] => true
  | tp, q :: rest => decide (tp ≤ q.1) && decide (q.1 < tp + 500) && burstTail q.1 rest

/-- Turn a list of (time, quantity) pairs into CHANGE_QUANTITY events. -/
def burstEvents (l : List (Nat × Nat)) : List (Nat × Event) :=
  l.map (fun p => (p.1, Event.changeQuantity p.2))

/-- Scenario context of §8's first scenario: `{quantity: 1, priceId: 'p1'}`
with the machine's initial empty pricing data and no coupon. -/
def scenarioContext : CommerceMachineContext := ⟨emptyPricingData, some "p1", 1, none⟩

/-- Scenario payload: `{plans: [{planId: 'p1', priceDiscounted: 10}],
available_coupons: {default: {coupon_code: 'D1'}},
applied_coupon: {coupon_code: 'D1'}}`. -/
def scenarioPayload : PricingData :=
  ⟨some [⟨"p1", some 10⟩], some ⟨none, some ⟨"D1"⟩⟩, some ⟨"D1"⟩⟩

/-- Same payload but `applied_coupon: {coupon_code: 'OTHER'}`. -/
def scenarioPayloadOther : PricingData :=
  ⟨some [⟨"p1", some 10⟩], some ⟨none, some ⟨"D1"⟩⟩, some ⟨"OTHER"⟩⟩

/-- A stored context for the validation-target counterexample: previously
stored pricing data with a well-formed plans list, a ppp coupon recorded as
available, and a ppp coupon currently chosen. -/
def storedPPPContext : CommerceMachineContext :=
  ⟨⟨some [⟨"p1", some 10⟩], some ⟨some ⟨"PPP1"⟩, none⟩, none⟩, some "p1", 1,
   some ⟨"PPP1", CouponType.ppp⟩⟩

/-- A payload whose `plans` entry is missing, i.e. one that fails the
expected-shape validation. -/
def malformedPayload : PricingData := emptyPricingData

/-- Event trace for the C4 counterexample, from the machine's initial
configuration: the first fetch returns a payload with a structurally valid
ppp coupon but a malformed plans list; the user selects plan `p1` and
applies the ppp coupon; the triggered refetch returns a payload whose plan
`p1` has no discounted price. -/
def pppThenNoDiscountTrace : List (Nat × Event) :=
  [(0, Event.fetchDone ⟨none, some ⟨some ⟨"PPP1"⟩, none⟩, none⟩),
   (1, Event.switchPrice "p1"),
   (2, Event.applyPPPCoupon),
   (3, Event.fetchDone ⟨some [⟨"p1", none⟩], none, none⟩)]

/-- The final payload of `pppThenNoDiscountTrace`. -/
def noDiscountPayload : PricingData := ⟨some [⟨"p1", none⟩], none, none⟩

theorem isEmptyOptNumber_eq_true (x : Option Int) : isEmptyOptNumber x = true := by
  cases x <;> rfl

theorem extractAppliedDefaultCoupon_spec (pd : PricingData) :
    extractAppliedDefaultCoupon pd =
      match pd.available_coupons.bind AvailableCoupons.default, pd.applied_coupon with
      | some dc, some ac =>
        if dc.coupon_code = ac.coupon_code then some ⟨ac.coupon_code, CouponType.default⟩
        else none
      | _, _ => none := by
  unfold extractAppliedDefaultCoupon
  cases pd.available_coupons.bind AvailableCoupons.default <;>
    cases pd.applied_coupon <;> simp [isEmptyOptCoupon]

/-- C1: the spec scenario — context `{quantity: 1, priceId: 'p1'}`, fetch
returns plans `[{p1, priceDiscounted: 10}]` with `available_coupons.default`
and `applied_coupon` both `D1` — is expected to yield
`couponToApply = {couponCode: 'D1', couponType: 'default'}` and state
`pricesLoaded.withDefaultCoupon`.  The code instead yields
`couponToApply = undefined` and `withoutCoupon`: `assignPricingData`
validates the previously stored `context.pricingData` (still `{}` on the
first fetch), so the coupon inference is skipped, even though
`extractAppliedDefaultCoupon` applied to the payload would produce the D1
default coupon (second conjunct); and even from a context whose stored data
is the valid payload itself, the coupon is still cleared, because lodash
`isEmpty` of the numeric discounted price 10 is `true` (third conjunct). -/
theorem C1_scenario_divergence :
    (deliver ⟨Node.loadingPrices, scenarioContext⟩ 0 (Event.fetchDone scenarioPayload)).1 =
      ⟨Node.pricesLoaded CouponState.withoutCoupon, ⟨scenarioPayload, some "p1", 1, none⟩⟩ ∧
    extractAppliedDefaultCoupon scenarioPayload = some ⟨"D1", CouponType.default⟩ ∧
    (assignPricingData ⟨scenarioPayload, some "p1", 1, none⟩ scenarioPayload).couponToApply =
      none := by
  refine ⟨rfl, by decide, by decide⟩

/-- C2 counterexample: the reconciliation step does not validate the freshly
fetched payload.  Here the fresh payload fails the expected-shape validation
(first conjunct), so per the claim the coupon decision should be left
untouched; the code stores the raw payload (second conjunct) but *changes*
`couponToApply` (third conjunct), because the validation it actually runs —
on the previously stored pricing data — succeeds. -/
theorem C2_counterexample :
    plansValidation malformedPayload = false ∧
    (assignPricingData storedPPPContext malformedPayload).pricingData = malformedPayload ∧
    (assignPricingData storedPPPContext malformedPayload).couponToApply ≠
      storedPPPContext.couponToApply := by
  refine ⟨rfl, by decide, by decide⟩

/-- C2 (amended): on a successful fetch the reconciliation step validates
the *previously stored* `context.pricingData` against the expected plans
shape; whenever that validation fails, the raw payload is stored into
`context.pricingData` as-is and `couponToApply` is left exactly as it was,
with no exception raised. -/
theorem C2_amended_stale_validation (context : CommerceMachineContext)
    (payload : PricingData) (h : plansValidation context.pricingData = false) :
    assignPricingData context payload = {context with pricingData := payload} := by
  unfold assignPricingData
  cases hp : context.pricingData.plans with
  | none => rfl
  | some l =>
    unfold plansValidation at h
    rw [hp] at h
    simp at h

theorem C2_amended_witness :
    assignPricingData initialContext scenarioPayload =
      {initialContext with pricingData := scenarioPayload} :=
  C2_amended_stale_validation initialContext scenarioPayload rfl

/-- C3: the default-coupon inference step sets a coupon only when
`available_coupons.default` and `applied_coupon` are both present with equal
coupon codes, in which case it produces `{couponCode, couponType: 'default'}`;
whenever either record is absent or the codes differ, it returns the empty
delta, leaving `couponToApply` unchanged. -/
theorem C3_default_coupon_inference (pd : PricingData) :
    (∀ c, extractAppliedDefaultCoupon pd = some c →
      ∃ dc ac, pd.available_coupons.bind AvailableCoupons.default = some dc ∧
        pd.applied_coupon = some ac ∧ dc.coupon_code = ac.coupon_code ∧
        c = ⟨ac.coupon_code, CouponType.default⟩) ∧
    ((pd.available_coupons.bind AvailableCoupons.default = none ∨
      pd.applied_coupon = none ∨
      (∀ dc ac, pd.available_coupons.bind AvailableCoupons.default = some dc →
        pd.applied_coupon = some ac → dc.coupon_code ≠ ac.coupon_code)) →
      extractAppliedDefaultCoupon pd = none) := by
  rw [extractAppliedDefaultCoupon_spec]
  cases hd : pd.available_coupons.bind AvailableCoupons.default with
  | none => exact ⟨fun c hc => by simp at hc, fun _ => rfl⟩
  | some dc =>
    cases ha : pd.applied_coupon with
    | none => exact ⟨fun c hc => by simp at hc, fun _ => rfl⟩
    | some ac =>
      constructor
      · intro c hc
        have hc' : (if dc.coupon_code = ac.coupon_code then
            some (⟨ac.coupon_code, CouponType.default⟩ : CouponToApply) else none) =
            some c := hc
        by_cases hcode : dc.coupon_code = ac.coupon_code
        · rw [if_pos hcode] at hc'
          exact ⟨dc, ac, rfl, rfl, hcode, (Option.some_inj.mp hc').symm⟩
        · rw [if_neg hcode] at hc'
          exact absurd hc' (by simp)
      · intro hmis
        rcases hmis with h | h | h
        · exact absurd h (by simp)
        · exact absurd h (by simp)
        · exact if_neg (h dc ac rfl rfl)

theorem C3_witness :
    extractAppliedDefaultCoupon scenarioPayloadOther = none :=
  (C3_default_coupon_inference scenarioPayloadOther).2
    (Or.inr (Or.inr (fun dc ac hdc hac => by
      simp [scenarioPayloadOther] at hdc hac
      rw [← hdc, ← hac]
      decide)))

/-- C4 counterexample: a trace from the machine's initial configuration —
first fetch returns a payload with a valid ppp coupon but malformed plans,
the user selects plan `p1` and applies the ppp coupon, and the refetch
returns a payload whose plan `p1` has no discounted price.  After that
successful fetch the fetched payload is stored and its plan matching the
current `priceId` has no discounted-price field, yet `couponToApply` is
still the ppp coupon instead of `undefined`: the validation of the (stale,
malformed) stored data failed, so the clearing step was skipped. -/
theorem C4_counterexample :
    (runTimed ⟨Node.loadingPrices, initialContext⟩ pppThenNoDiscountTrace).1.context.pricingData =
      noDiscountPayload ∧
    matchingPlan noDiscountPayload
      (runTimed ⟨Node.loadingPrices, initialContext⟩ pppThenNoDiscountTrace).1.context.priceId =
      some ⟨"p1", none⟩ ∧
    (runTimed ⟨Node.loadingPrices, initialContext⟩
        pppThenNoDiscountTrace).1.context.couponToApply =
      some ⟨"PPP1", CouponType.ppp⟩ := by
  refine ⟨by decide, by decide, by decide⟩

/-- C4 (amended): after every successful fetch on which the previously
stored pricing data passes the plans-list validation, if the plan in the
fetched payload matching the current `priceId` has no discounted-price
field, then `couponToApply` is undefined in the resulting context. -/
theorem C4_amended_valid_stored (context : CommerceMachineContext) (payload : PricingData)
    (plan : Plan) (hv : plansValidation context.pricingData = true)
    (hm : matchingPlan payload context.priceId = some plan)
    (hd : plan.price_discounted = none) :
    (assignPricingData context payload).couponToApply = none := by
  unfold assignPricingData
  cases hp : context.pricingData.plans with
  | none =>
    unfold plansValidation at hv
    rw [hp] at hv
    simp at hv
  | some l => simp [isEmptyOptNumber_eq_true]

theorem C4_amended_witness :
    (assignPricingData storedPPPContext noDiscountPayload).couponToApply = none :=
  C4_amended_valid_stored storedPPPContext noDiscountPayload ⟨"p1", none⟩ rfl (by decide) rfl

/-- C9: on a successful fetch where the plans-list validation succeeds but
no plan in the validated list has a plan identifier equal to the current
`context.priceId` (in particular when `priceId` is still undefined),
`couponToApply` is set to undefined in the resulting context. -/
theorem C9_no_matching_plan (context : CommerceMachineContext) (payload : PricingData)
    (l : List Plan) (hv : context.pricingData.plans = some l)
    (hf : ∀ plan ∈ l, some plan.stripe_price_id ≠ context.priceId) :
    (assignPricingData context payload).couponToApply = none := by
  unfold assignPricingData
  rw [hv]
  simp [isEmptyOptNumber_eq_true]

theorem C9_witness :
    (assignPricingData ⟨⟨some [⟨"p1", some 10⟩], none, none⟩, none, 1,
        some ⟨"X", CouponType.ppp⟩⟩ emptyPricingData).couponToApply = none :=
  C9_no_matching_plan _ emptyPricingData [⟨"p1", some 10⟩] rfl (by decide)

/-- C10: firing APPLY_PPP_COUPON from `withDefaultCoupon` while the stored
pricing data has no structurally valid `available_coupons.ppp` record
assigns `undefined` to `couponToApply` — the previously inferred default
coupon is discarded, not preserved — and the machine still transitions to
`loadingPrices`, issuing one refetch (now without a coupon). -/
theorem C10_apply_discards_default (context : CommerceMachineContext) (t : Nat)
    (code : String)
    (hc : context.couponToApply = some ⟨code, CouponType.default⟩)
    (hp : context.pricingData.available_coupons.bind AvailableCoupons.ppp = none) :
    deliver ⟨Node.pricesLoaded CouponState.withDefaultCoupon, context⟩ t
        Event.applyPPPCoupon =
      (⟨Node.loadingPrices, {context with couponToApply := none}⟩,
       [⟨context.quantity, none⟩]) ∧
    ((⟨Node.loadingPrices, {context with couponToApply := none}⟩ :
        MachineState)).context.couponToApply ≠ context.couponToApply := by
  constructor
  · simp [deliver, elapse, handle, applyPPPCoupon, invokeFetch, hp]
  · rw [hc]
    simp

theorem C10_witness :
    deliver ⟨Node.pricesLoaded CouponState.withDefaultCoupon,
        ⟨emptyPricingData, none, 1, some ⟨"D9", CouponType.default⟩⟩⟩ 0
        Event.applyPPPCoupon =
      (⟨Node.loadingPrices, ⟨emptyPricingData, none, 1, none⟩⟩, [⟨1, none⟩]) :=
  (C10_apply_discards_default ⟨emptyPricingData, none, 1,
    some ⟨"D9", CouponType.default⟩⟩ 0 "D9" rfl rfl).1

/-- C5: a rejection of the fetch collaborator while in `loadingPrices` moves
the machine to `pricingFetchFailed`; that state is a top-level `final`
state, so the interpreted service stops there, and every subsequent event —
quantity-change, apply-ppp-coupon, remove-ppp-coupon, plan-switch,
checkout-confirm, even further fetch completions — leaves the machine in
`pricingFetchFailed` with the context untouched and no fetch ever issued
again (no retry). -/
theorem C5_fetch_failure_terminal :
    (∀ (context : CommerceMachineContext) (t : Nat),
      deliver ⟨Node.loadingPrices, context⟩ t Event.fetchError =
        (⟨Node.pricingFetchFailed, context⟩, [])) ∧
    (∀ (context : CommerceMachineContext) (evs : List (Nat × Event)),
      runTimed ⟨Node.pricingFetchFailed, context⟩ evs =
        (⟨Node.pricingFetchFailed, context⟩, [])) := by
  constructor
  · intro context t
    rfl
  · intro context evs
    induction evs with
    | nil => rfl
    | cons e rest ih =>
      have hd : deliver ⟨Node.pricingFetchFailed, context⟩ e.1 e.2 =
          (⟨Node.pricingFetchFailed, context⟩, []) := by
        obtain ⟨t, ev⟩ := e
        cases ev <;> rfl
      simp only [runTimed, hd, ih]
      rfl

/-- C7: firing APPLY_PPP_COUPON from `withDefaultCoupon` or `withoutCoupon`
when `pricingData.available_coupons.ppp.coupon_code` is structurally
present sets `couponToApply = {couponCode, couponType: 'ppp'}` and
transitions to `loadingPrices`, issuing exactly one refetch; when the
regional coupon is absent and no coupon was chosen, `couponToApply` stays
undefined, no exception is raised, and the machine still refetches once. -/
theorem C7_apply_ppp_coupon (sub : CouponState) (context : CommerceMachineContext)
    (t : Nat)
    (hsub : sub = CouponState.withDefaultCoupon ∨ sub = CouponState.withoutCoupon) :
    (∀ c, context.pricingData.available_coupons.bind AvailableCoupons.ppp = some c →
      deliver ⟨Node.pricesLoaded sub, context⟩ t Event.applyPPPCoupon =
        (⟨Node.loadingPrices,
          {context with couponToApply := some ⟨c.coupon_code, CouponType.ppp⟩}⟩,
         [⟨context.quantity, some c.coupon_code⟩])) ∧
    (context.pricingData.available_coupons.bind AvailableCoupons.ppp = none →
      context.couponToApply = none →
      deliver ⟨Node.pricesLoaded sub, context⟩ t Event.applyPPPCoupon =
        (⟨Node.loadingPrices, context⟩, [⟨context.quantity, none⟩])) := by
  rcases hsub with h | h <;> subst h <;>
    refine ⟨fun c hc => by
        simp [deliver, elapse, handle, applyPPPCoupon, invokeFetch, hc],
      fun hn hcoupon => by
        obtain ⟨pdata, pid, q, cta⟩ := context
        simp only at hcoupon hn
        subst hcoupon
        simp [deliver, elapse, handle, applyPPPCoupon, invokeFetch, hn]⟩

theorem C7_witness :
    deliver ⟨Node.pricesLoaded CouponState.withoutCoupon,
        ⟨⟨none, some ⟨some ⟨"P7"⟩, none⟩, none⟩, none, 2, none⟩⟩ 0 Event.applyPPPCoupon =
      (⟨Node.loadingPrices,
        ⟨⟨none, some ⟨some ⟨"P7"⟩, none⟩, none⟩, none, 2, some ⟨"P7", CouponType.ppp⟩⟩⟩,
       [⟨2, some "P7"⟩]) :=
  (C7_apply_ppp_coupon CouponState.withoutCoupon
    ⟨⟨none, some ⟨some ⟨"P7"⟩, none⟩, none⟩, none, 2, none⟩ 0 (Or.inr rfl)).1 ⟨"P7"⟩ rfl

theorem assignPricingData_coupon_cases (context : CommerceMachineContext)
    (payload : PricingData) :
    (assignPricingData context payload).couponToApply = context.couponToApply ∨
    (assignPricingData context payload).couponToApply = none ∨
    ∃ code, (assignPricingData context payload).couponToApply =
      some ⟨code, CouponType.default⟩ := by
  unfold assignPricingData
  cases hp : context.pricingData.plans with
  | none => exact Or.inl rfl
  | some l =>
    right
    left
    simp [isEmptyOptNumber_eq_true]

theorem checkingCouponStatus_not_ppp (c : CommerceMachineContext)
    (h : c.couponToApply = none ∨
      ∃ code, c.couponToApply = some ⟨code, CouponType.default⟩) :
    checkingCouponStatus c ≠ CouponState.withPPPCoupon := by
  unfold checkingCouponStatus pricingIncludesPPPCoupon pricingIncludesDefaultCoupon
  rcases h with h | ⟨code, h⟩ <;> rw [h] <;> simp

/-- C8: from `withPPPCoupon`, REMOVE_PPP_COUPON unconditionally clears
`couponToApply` and transitions to `loadingPrices`, issuing one refetch
(first conjunct); the subsequent successful fetch, starting from a context
with no chosen coupon, re-evaluates coupon status from scratch and lands in
a `pricesLoaded` sub-state other than `withPPPCoupon` (second conjunct),
because the reconciliation step can only leave `couponToApply` unchanged,
clear it, or set a default-type coupon (third conjunct): only the explicit
APPLY_PPP_COUPON action ever produces a ppp-type coupon. -/
theorem C8_remove_ppp_coupon :
    (∀ (context : CommerceMachineContext) (t : Nat),
      deliver ⟨Node.pricesLoaded CouponState.withPPPCoupon, context⟩ t
          Event.removePPPCoupon =
        (⟨Node.loadingPrices, {context with couponToApply := none}⟩,
         [⟨context.quantity, none⟩])) ∧
    (∀ (context : CommerceMachineContext) (payload : PricingData) (t : Nat),
      context.couponToApply = none →
      ∃ sub,
        (deliver ⟨Node.loadingPrices, context⟩ t (Event.fetchDone payload)).1.node =
          Node.pricesLoaded sub ∧ sub ≠ CouponState.withPPPCoupon) ∧
    (∀ (context : CommerceMachineContext) (payload : PricingData),
      (assignPricingData context payload).couponToApply = context.couponToApply ∨
      (assignPricingData context payload).couponToApply = none ∨
      ∃ code, (assignPricingData context payload).couponToApply =
        some ⟨code, CouponType.default⟩) := by
  refine ⟨fun context t => rfl, fun context payload t hc => ?_,
    assignPricingData_coupon_cases⟩
  refine ⟨checkingCouponStatus (assignPricingData context payload), rfl, ?_⟩
  apply checkingCouponStatus_not_ppp
  rcases assignPricingData_coupon_cases context payload with h | h | h
  · rw [hc] at h
    exact Or.inl h
  · exact Or.inl h
  · exact Or.inr h

theorem C8_witness :
    (deliver ⟨Node.pricesLoaded CouponState.withPPPCoupon,
        ⟨emptyPricingData, none, 3, some ⟨"P8", CouponType.ppp⟩⟩⟩ 0
        Event.removePPPCoupon =
      (⟨Node.loadingPrices, ⟨emptyPricingData, none, 3, none⟩⟩, [⟨3, none⟩])) ∧
    ∃ sub,
      (deliver ⟨Node.loadingPrices, ⟨emptyPricingData, none, 3, none⟩⟩ 1
          (Event.fetchDone scenarioPayload)).1.node = Node.pricesLoaded sub ∧
        sub ≠ CouponState.withPPPCoupon :=
  ⟨C8_remove_ppp_coupon.1 ⟨emptyPricingData, none, 3, some ⟨"P8", CouponType.ppp⟩⟩ 0,
   C8_remove_ppp_coupon.2.1 ⟨emptyPricingData, none, 3, none⟩ scenarioPayload 1 rfl⟩

theorem runTimed_cons (s : MachineState) (t : Nat) (e : Event)
    (rest : List (Nat × Event)) :
    runTimed s ((t, e) :: rest) =
      ((runTimed (deliver s t e).1 rest).1,
       (deliver s t e).2 ++ (runTimed (deliver s t e).1 rest).2) := rfl

theorem burstEvents_cons (p : Nat × Nat) (rest : List (Nat × Nat)) :
    burstEvents (p :: rest) = (p.1, Event.changeQuantity p.2) :: burstEvents rest := rfl

theorem deliver_change (s : MachineState) (t q : Nat)
    (hn : s.node ≠ Node.pricingFetchFailed)
    (hd : ∀ d, s.node = Node.debouncingQuantityChange d → t < d) :
    deliver s t (Event.changeQuantity q) =
      (⟨Node.debouncingQuantityChange (t + 500), updateQuantity s.context q⟩, []) := by
  obtain ⟨node, context⟩ := s
  cases node with
  | loadingPrices => rfl
  | pricesLoaded sub => cases sub <;> rfl
  | pricingFetchFailed => exact absurd rfl hn
  | debouncingQuantityChange d =>
    have hlt := hd d rfl
    unfold deliver elapse
    dsimp only
    rw [if_neg (Nat.not_le.mpr hlt)]
    rfl

theorem runTimed_burstTail (rest : List (Nat × Nat)) :
    ∀ (tp : Nat) (c : CommerceMachineContext), burstTail tp rest = true →
      runTimed ⟨Node.debouncingQuantityChange (tp + 500), c⟩ (burstEvents rest) =
        (⟨Node.debouncingQuantityChange ((lastPair (tp, c.quantity) rest).1 + 500),
          updateQuantity c (lastPair (tp, c.quantity) rest).2⟩, []) := by
  induction rest with
  | nil =>
    intro tp c h
    rfl
  | cons p rest ih =>
    intro tp c h
    obtain ⟨t1, q1⟩ := p
    unfold burstTail at h
    simp only [Bool.and_eq_true, decide_eq_true_eq] at h
    obtain ⟨⟨h1, h2⟩, h3⟩ := h
    have hstep : deliver ⟨Node.debouncingQuantityChange (tp + 500), c⟩ t1
        (Event.changeQuantity q1) =
        (⟨Node.debouncingQuantityChange (t1 + 500), updateQuantity c q1⟩, []) :=
      deliver_change ⟨Node.debouncingQuantityChange (tp + 500), c⟩ t1 q1
        (fun hx => Node.noConfusion hx)
        (fun d hx => by
          injection hx with hx'
          omega)
    rw [burstEvents_cons, runTimed_cons, hstep]
    dsimp only
    rw [ih t1 (updateQuantity c q1) h3]
    rfl

/-- C6 counterexample: the claim says a quantity-change event received in
*any* state transitions the machine to `debouncingQuantityChange` and
updates `quantity`.  In the terminal `pricingFetchFailed` state the stopped
machine drops the event instead: the state stays `pricingFetchFailed` (not
`debouncingQuantityChange`) and the quantity stays 1, not 5. -/
theorem C6_counterexample :
    (deliver ⟨Node.pricingFetchFailed, initialContext⟩ 0 (Event.changeQuantity 5)).1 =
      ⟨Node.pricingFetchFailed, initialContext⟩ ∧
    (deliver ⟨Node.pricingFetchFailed, initialContext⟩ 0
        (Event.changeQuantity 5)).1.node ≠ Node.debouncingQuantityChange 500 ∧
    (deliver ⟨Node.pricingFetchFailed, initialContext⟩ 0
        (Event.changeQuantity 5)).1.context.quantity ≠ 5 := by
  refine ⟨rfl, by decide, by decide⟩

/-- C6 (amended): a quantity-change event received in any state *other than
the terminal `pricingFetchFailed`* transitions the machine to
`debouncingQuantityChange` and immediately updates `context.quantity` to
the event's value (first conjunct); and for any burst of quantity-change
events each arriving strictly within 500ms of the previous one (started in
a non-terminal state with no already-expired debounce deadline pending), no
fetch at all is issued while the burst runs, and when 500ms elapse after
the last event the debounce fires, entering `loadingPrices` and issuing
exactly one fetch that carries the last quantity of the burst (second
conjunct; re-entering `debouncingQuantityChange` replaces the deadline,
which is the timer reset). -/
theorem C6_amended_debounced_quantity :
    (∀ (s : MachineState) (t q : Nat), s.node ≠ Node.pricingFetchFailed →
      (deliver s t (Event.changeQuantity q)).1 =
        ⟨Node.debouncingQuantityChange (t + 500), updateQuantity s.context q⟩) ∧
    (∀ (s : MachineState) (t0 q0 : Nat) (rest : List (Nat × Nat)),
      s.node ≠ Node.pricingFetchFailed →
      (∀ d, s.node = Node.debouncingQuantityChange d → t0 < d) →
      burstTail t0 rest = true →
      runTimed s (burstEvents ((t0, q0) :: rest)) =
        (⟨Node.debouncingQuantityChange ((lastPair (t0, q0) rest).1 + 500),
          updateQuantity s.context (lastPair (t0, q0) rest).2⟩, []) ∧
      elapse ⟨Node.debouncingQuantityChange ((lastPair (t0, q0) rest).1 + 500),
          updateQuantity s.context (lastPair (t0, q0) rest).2⟩
          ((lastPair (t0, q0) rest).1 + 500) =
        (⟨Node.loadingPrices, updateQuantity s.context (lastPair (t0, q0) rest).2⟩,
         [⟨(lastPair (t0, q0) rest).2,
           s.context.couponToApply.map CouponToApply.couponCode⟩])) := by
  constructor
  · intro s t q hn
    obtain ⟨node, context⟩ := s
    cases node with
    | loadingPrices => rfl
    | pricesLoaded sub => cases sub <;> rfl
    | pricingFetchFailed => exact absurd rfl hn
    | debouncingQuantityChange d =>
      unfold deliver elapse
      dsimp only
      by_cases hle : d ≤ t
      · rw [if_pos hle]
        rfl
      · rw [if_neg hle]
        rfl
  · intro s t0 q0 rest hn hd hburst
    have h0 : deliver s t0 (Event.changeQuantity q0) =
        (⟨Node.debouncingQuantityChange (t0 + 500), updateQuantity s.context q0⟩, []) :=
      deliver_change s t0 q0 hn hd
    constructor
    · rw [burstEvents_cons, runTimed_cons, h0]
      dsimp only
      rw [runTimed_burstTail rest t0 (updateQuantity s.context q0) hburst]
      rfl
    · unfold elapse
      dsimp only
      rw [if_pos (Nat.le_refl _)]
      rfl

theorem C6_witness :
    runTimed ⟨Node.pricesLoaded CouponState.withoutCoupon, initialContext⟩
        (burstEvents [(0, 2), (100, 3), (400, 7)]) =
      (⟨Node.debouncingQuantityChange 900, updateQuantity initialContext 7⟩, []) ∧
    elapse ⟨Node.debouncingQuantityChange 900, updateQuantity initialContext 7⟩ 900 =
      (⟨Node.loadingPrices, updateQuantity initialContext 7⟩, [⟨7, none⟩]) :=
  C6_amended_debounced_quantity.2
    ⟨Node.pricesLoaded CouponState.withoutCoupon, initialContext⟩ 0 2 [(100, 3), (400, 7)]
    (by decide) (fun d hx => Node.noConfusion hx) (by decide)
